import Mathlib

/-!
Verification development for the Survey Interaction Engine of the Solvap
repository.  The definitions below are a shallow embedding of the
TypeScript source (the `SurveyJunkieBot` class, `GptLongFormResponder`,
and their helpers): strings are modelled as Lean `String`/`List Char`,
JavaScript regular-expression tests over literal alternations are
modelled as explicit scanners with the same matching semantics,
`Math.random()` draws are modelled as a stream of rationals in `[0, 1)`,
and DOM elements are modelled as records carrying exactly the attributes
the embedded code reads.
-/

namespace Solvap

/-! ## JavaScript string primitives -/

/-- JavaScript whitespace test (`\s`, `String.prototype.trim`) restricted to
the ASCII whitespace characters that occur in the modelled prompts. -/
def jsIsWhitespace (c : Char) : Bool :=
  c = ' ' || c = '\t' || c = '\n' || c = '\r'

/-- Characters that survive `replace(/[^a-z0-9]+/g, " ")` after lowercasing. -/
def isLowerAlnum (c : Char) : Bool :=
  (('a' ≤ c) && (c ≤ 'z')) || (('0' ≤ c) && (c ≤ '9'))

/-- Decimal digit test (`\d`). -/
def jsIsDigit (c : Char) : Bool :=
  ('0' ≤ c) && (c ≤ '9')

/-- `listIsPrefixOf pat l` holds when `pat` is a prefix of `l`. -/
def listIsPrefixOf : List Char → List Char → Bool
  | [], _ => true
  | _ :: _, [] => false
  | a :: as, b :: bs => (a = b) && listIsPrefixOf as bs

/-- Substring containment on character lists: JavaScript
`hay.includes(needle)` (the empty needle is contained everywhere). -/
def listIncludes (needle : List Char) : List Char → Bool
  | [] => listIsPrefixOf needle []
  | c :: rest => listIsPrefixOf needle (c :: rest) || listIncludes needle rest

/-- JavaScript `hay.includes(needle)` on `String`. -/
def strIncludes (hay needle : String) : Bool :=
  listIncludes needle.data hay.data

/-- Collapse every run of consecutive spaces to a single space
(the effect of `replace(/[^a-z0-9]+/g, " ")` on a string whose
non-alphanumeric characters have each been mapped to a space). -/
def squeezeSpaces : List Char → List Char
  | [] => []
  | [c] => [c]
  | a :: b :: rest =>
    if a = ' ' && b = ' ' then squeezeSpaces (b :: rest)
    else a :: squeezeSpaces (b :: rest)

/-- Drop leading and trailing JavaScript whitespace (`String.prototype.trim`). -/
def listTrim (l : List Char) : List Char :=
  ((l.dropWhile jsIsWhitespace).reverse.dropWhile jsIsWhitespace).reverse

/-- JavaScript `trim` on `String`. -/
def jsTrim (s : String) : String :=
  ⟨listTrim s.data⟩

/-- The prompt normalizer of `answerCurrentStep`:
`text.toLowerCase().replace(/[^a-z0-9]+/g, " ").trim()`. -/
def normalize (s : String) : String :=
  ⟨listTrim (squeezeSpaces ((s.data.map Char.toLower).map
    (fun c => if isLowerAlnum c then c else ' ')))⟩

/-- JavaScript `String.prototype.split(sep)` with a non-empty separator,
on character lists.  `acc` holds the current chunk reversed; `skip`
counts separator characters still to be consumed after a match (so the
recursion stays structural on the scanned list). -/
def splitOnAux (sep : List Char) : List Char → Nat → List Char →
    List (List Char)
  | [], _, acc => [acc.reverse]
  | _ :: rest, skip + 1, acc => splitOnAux sep rest skip acc
  | c :: rest, 0, acc =>
    if listIsPrefixOf sep (c :: rest) then
      acc.reverse :: splitOnAux sep rest (sep.length - 1) []
    else
      splitOnAux sep rest 0 (c :: acc)

/-- `String.prototype.split` restricted to the separator `" and "` used by
`pushLabel`. -/
def splitOnAnd (l : List Char) : List (List Char) :=
  splitOnAux " and ".data l 0 []

/-- Lowercasing a whole string (`String.prototype.toLowerCase`). -/
def lowerStr (s : String) : String :=
  ⟨s.data.map Char.toLower⟩

/-- Keep the first occurrence of every element, with the elements already
emitted as the accumulator (`Array.from(new Set(xs))`). -/
def dedupKeepFirstAux {α} [DecidableEq α] : List α → List α → List α
  | _, [] => []
  | seen, a :: rest =>
    if seen.contains a then dedupKeepFirstAux seen rest
    else a :: dedupKeepFirstAux (a :: seen) rest

/-- Keep the first occurrence of every element (`Array.from(new Set(xs))`). -/
def dedupKeepFirst {α} [DecidableEq α] (l : List α) : List α :=
  dedupKeepFirstAux [] l

/-! ## Regular-expression scanners

Each JavaScript regular expression used by `detectAttentionInstruction` is
an alternation of literal words with `\s`, `\d` and optional groups; the
scanners below implement the same leftmost-match semantics directly. -/

/-- Number of leading whitespace characters (a greedy `\s*` / `\s+`). -/
def wsCount (l : List Char) : Nat :=
  (l.takeWhile jsIsWhitespace).length

/-- Match a literal word at the head of the input and drop it. -/
def dropLit (w : String) (l : List Char) : Option (List Char) :=
  if listIsPrefixOf w.data l then some (l.drop w.data.length) else none

/-- First literal of an alternation matching at the head of the input. -/
def firstLit (ws : List String) (l : List Char) : Option (List Char) :=
  ws.findSome? (fun w => dropLit w l)

/-- Case-insensitive prefix test against a lowercase pattern. -/
def listIsPrefixOfCI : List Char → List Char → Bool
  | [], _ => true
  | _ :: _, [] => false
  | a :: as, b :: bs => (a = b.toLower) && listIsPrefixOfCI as bs

/-- Case-insensitive `dropLit` (for regexes carrying the `i` flag). -/
def dropLitCI (w : String) (l : List Char) : Option (List Char) :=
  if listIsPrefixOfCI w.data l then some (l.drop w.data.length) else none

/-- Case-insensitive `firstLit`. -/
def firstLitCI (ws : List String) (l : List Char) : Option (List Char) :=
  ws.findSome? (fun w => dropLitCI w l)

/-- The quote characters of the extraction regexes. -/
def isQuoteChar (c : Char) : Bool :=
  c = '"' || c = '\'' || c = '“' || c = '”'

/-- Digit run to the number it denotes (`Number.parseInt` on a `\d+` capture). -/
def digitsToNat (ds : List Char) : Nat :=
  ds.foldl (fun n c => n * 10 + (c.toNat - '0'.toNat)) 0

/-- Tail of `/(?:type|enter|write)\s+(?:the\s+)?(?:number|digit)\s*(\d+)/`
after one of the verbs has been consumed: returns the digit capture. -/
def typedNumberTail (l : List Char) : Option (List Char) :=
  let w := wsCount l
  if w = 0 then none else
  let l1 := l.drop w
  let attempt : List Char → Option (List Char) := fun l2 =>
    match firstLit ["number", "digit"] l2 with
    | some l3 =>
      let l4 := l3.dropWhile jsIsWhitespace
      let ds := l4.takeWhile jsIsDigit
      if ds = [] then none else some ds
    | none => none
  match dropLit "the" l1 with
  | some l2 =>
    let w2 := wsCount l2
    if 1 ≤ w2 then
      match attempt (l2.drop w2) with
      | some r => some r
      | none => attempt l1
    else attempt l1
  | none => attempt l1

/-- Leftmost match of the typed-number regex over the lowercased prompt. -/
def scanTypedNumber : List Char → Option (List Char)
  | [] => none
  | c :: rest =>
    match firstLit ["type", "enter", "write"] (c :: rest) with
    | some after =>
      match typedNumberTail after with
      | some ds => some ds
      | none => scanTypedNumber rest
    | none => scanTypedNumber rest

/-- Tail of `/(?:type|enter|write)[^"'“”]*["'“”]([^"'“”]{2,})["'“”]/i` after
the verb: skip to the first quote, capture to the next quote, require at
least two characters in between. -/
def typedQuotedTail (l : List Char) : Option (List Char) :=
  let pre := l.takeWhile (fun c => !isQuoteChar c)
  match l.drop pre.length with
  | _ :: r2 =>
    let cap := r2.takeWhile (fun c => !isQuoteChar c)
    match r2.drop cap.length with
    | _ :: _ => if 2 ≤ cap.length then some cap else none
    | [] => none
  | [] => none

/-- Leftmost match of the quoted typed-value regex over the raw prompt
(case-insensitive). -/
def scanTypedQuoted : List Char → Option (List Char)
  | [] => none
  | c :: rest =>
    match firstLitCI ["type", "enter", "write"] (c :: rest) with
    | some after =>
      match typedQuotedTail after with
      | some cap => some cap
      | none => scanTypedQuoted rest
    | none => scanTypedQuoted rest

/-- Characters of the capture class `[a-z0-9 ]` of the typed-word regex. -/
def isWordCapChar (c : Char) : Bool :=
  isLowerAlnum c || c = ' '

/-- Greedy capture `([a-z0-9 ]{3,})` after the `\s+` that follows the
`word|phrase|text|answer` keyword.  The `\s+` is greedy but gives
whitespace back to the capture when the run after it is shorter than
three characters (the trailing `\s*(?:into|…)?` of the regex always
matches the empty string, so it never constrains the capture). -/
def typedWordCap (l : List Char) : Option (List Char) :=
  let w := l.takeWhile jsIsWhitespace
  if w.length = 0 then none else
  let rest := l.drop w.length
  let run := rest.takeWhile isWordCapChar
  if 3 ≤ run.length then some run
  else
    let k := 3 - run.length
    if k + 1 ≤ w.length && (w.drop (w.length - k)).all (fun c => c = ' ') then
      some (w.drop (w.length - k) ++ run)
    else none

/-- Tail of the typed-word regex after the verb. -/
def typedWordTail (l : List Char) : Option (List Char) :=
  let w := wsCount l
  if w = 0 then none else
  let l1 := l.drop w
  let attempt : List Char → Option (List Char) := fun l2 =>
    match firstLit ["word", "phrase", "text", "answer"] l2 with
    | some l3 => typedWordCap l3
    | none => none
  match dropLit "the" l1 with
  | some l2 =>
    let w2 := wsCount l2
    if 1 ≤ w2 then
      match attempt (l2.drop w2) with
      | some r => some r
      | none => attempt l1
    else attempt l1
  | none => attempt l1

/-- Leftmost match of the typed-word regex over the lowercased prompt. -/
def scanTypedWord : List Char → Option (List Char)
  | [] => none
  | c :: rest =>
    match firstLit ["type", "enter", "write"] (c :: rest) with
    | some after =>
      match typedWordTail after with
      | some cap => some cap
      | none => scanTypedWord rest
    | none => scanTypedWord rest

/-- Digits after an optional `\s*` (shared tail of the index-target regex). -/
def selIndexDigits (l : List Char) : Option (List Char) :=
  let l2 := l.dropWhile jsIsWhitespace
  let ds := l2.takeWhile jsIsDigit
  if ds = [] then none else some ds

/-- Tail of
`/(?:select|choose|pick|mark|tap)\s+(?:the\s+)?(?:number|option|answer|choice)?\s*(\d+)/`
after the verb. -/
def numberSelTail (l : List Char) : Option (List Char) :=
  let w := wsCount l
  if w = 0 then none else
  let l1 := l.drop w
  let attempt : List Char → Option (List Char) := fun l2 =>
    match firstLit ["number", "option", "answer", "choice"] l2 with
    | some l3 =>
      match selIndexDigits l3 with
      | some ds => some ds
      | none => selIndexDigits l2
    | none => selIndexDigits l2
  match dropLit "the" l1 with
  | some l2 =>
    let w2 := wsCount l2
    if 1 ≤ w2 then
      match attempt (l2.drop w2) with
      | some r => some r
      | none => attempt l1
    else attempt l1
  | none => attempt l1

/-- Leftmost match of the digit index-target regex over the lowercased
prompt. -/
def scanNumberSel : List Char → Option (List Char)
  | [] => none
  | c :: rest =>
    match firstLit ["select", "choose", "pick", "mark", "tap"] (c :: rest) with
    | some after =>
      match numberSelTail after with
      | some ds => some ds
      | none => scanNumberSel rest
    | none => scanNumberSel rest

/-- Scanner for `/please\s+(select|choose|pick|mark|enter|type)/`. -/
def politePleaseScan : List Char → Bool
  | [] => false
  | c :: rest =>
    (listIsPrefixOf "please".data (c :: rest) &&
      (let after := (c :: rest).drop 6
       let w := wsCount after
       (decide (1 ≤ w)) &&
         ["select", "choose", "pick", "mark", "enter", "type"].any
           (fun v => listIsPrefixOf v.data (after.drop w)))) ||
    politePleaseScan rest

/-! ## The attention-check parser (`detectAttentionInstruction`) -/

/-- The structured directive returned by `detectAttentionInstruction`. -/
structure AttentionDirective where
  labelTargets : List String
  indexTargets : List Nat
  typedValue : Option String
  preferredKeywords : List String
deriving DecidableEq, Repr

/-- Literal alternation of the attention-language regex. -/
def attentionLanguageMarkers : List String :=
  ["attention", "quality check", "instruction check", "bot check", "captcha",
   "consistency check", "control question", "human", "verification"]

/-- Literal members of the polite-instruction regex alternation (the
`please\s+verb` member is handled by `politePleaseScan`). -/
def politeMarkers : List String :=
  ["for this question", "to show you are", "just to check", "as a check",
   "for verification"]

/-- The `explicitPhrases` vocabulary of the parser, in source order. -/
def explicitPhrases : List String :=
  ["strongly agree", "strongly disagree", "agree", "disagree", "neutral",
   "none of the above", "all of the above", "i am paying attention",
   "i am human", "i read the instructions", "i read the question",
   "attention"]

/-- The `colorPhrases` vocabulary of the parser, in source order. -/
def colorPhrases : List String :=
  ["blue", "red", "green", "yellow", "orange", "purple", "black", "white",
   "pink", "brown"]

/-- The fixed preferred-keyword vocabulary added under attention language. -/
def attentionKeywords : List String :=
  ["attention", "paying attention", "i am paying attention", "human",
   "quality", "instruction"]

/-- The `numberWords` table, in object-insertion order. -/
def numberWords : List (String × Nat) :=
  [("one", 1), ("two", 2), ("three", 3), ("four", 4), ("five", 5),
   ("six", 6), ("seven", 7), ("eight", 8), ("nine", 9), ("ten", 10),
   ("first", 1), ("second", 2), ("third", 3), ("fourth", 4), ("fifth", 5),
   ("sixth", 6), ("seventh", 7), ("eighth", 8), ("ninth", 9), ("tenth", 10)]

/-- `pushLabel`: gated on `shouldConsiderTargets`; normalizes the value,
splits on `" and "`, and appends with deduplication. -/
def pushLabel (should : Bool) (acc : List String) (value : String) :
    List String :=
  if !should then acc else
  let normalized := normalize value
  if normalized = "" then acc
  else if strIncludes normalized " and " then
    (splitOnAnd normalized.data).foldl
      (fun acc2 part =>
        let trimmed := jsTrim ⟨part⟩
        if trimmed ≠ "" && !(acc2.contains trimmed) then acc2 ++ [trimmed]
        else acc2)
      acc
  else if acc.contains normalized then acc else acc ++ [normalized]

/-- `pushIndex`: gated on `shouldConsiderTargets`; rejects non-positive
values and appends with deduplication. -/
def pushIndex (should : Bool) (acc : List Nat) (value : Nat) : List Nat :=
  if !should then acc
  else if value = 0 then acc
  else if acc.contains value then acc else acc ++ [value]

/-- State machine for the global quote regex `/["'“”]([^"'“”]{2,})["'“”]/g`:
emits every captured segment, re-using a too-close closing quote as the
next opening quote exactly as the regex engine does.  The second argument
holds the reversed segment accumulated since the last unmatched opening
quote. -/
def quotedSegments : List Char → Option (List Char) → List (List Char)
  | [], _ => []
  | c :: rest, none =>
    if isQuoteChar c then quotedSegments rest (some [])
    else quotedSegments rest none
  | c :: rest, some seg =>
    if isQuoteChar c then
      if 2 ≤ seg.length then seg.reverse :: quotedSegments rest none
      else quotedSegments rest (some [])
    else quotedSegments rest (some (c :: seg))

/-- Shallow embedding of `detectAttentionInstruction` (the attention-check
parser of `answerCurrentStep`). -/
def detectAttentionInstruction (text : String) : Option AttentionDirective :=
  let raw := jsTrim text
  if raw = "" then none else
  let lower := lowerStr raw
  let hasAttentionLanguage :=
    attentionLanguageMarkers.any (fun m => strIncludes lower m)
  let hasPoliteInstruction :=
    politePleaseScan lower.data || politeMarkers.any (fun m => strIncludes lower m)
  let shouldConsiderTargets := hasAttentionLanguage || hasPoliteInstruction
  let tvNumber : Option String :=
    (scanTypedNumber lower.data).map (fun ds => jsTrim ⟨ds⟩)
  let tvQuoted : Option String :=
    (scanTypedQuoted raw.data).map (fun cap => jsTrim ⟨cap⟩)
  let typedValue : Option String :=
    match tvQuoted with
    | some v => some v
    | none =>
      match tvNumber with
      | some v => some v
      | none =>
        match scanTypedWord lower.data with
        | some cap =>
          if hasAttentionLanguage || strIncludes lower "exactly" ||
              strIncludes lower "attention" || strIncludes lower "human" then
            some (jsTrim ⟨cap⟩)
          else none
        | none => none
  let labels0 : List String :=
    if ["select", "choose", "pick", "mark"].any (fun v => strIncludes lower v) then
      (quotedSegments raw.data none).foldl
        (fun acc seg =>
          let phrase := jsTrim ⟨seg⟩
          if phrase ≠ "" then pushLabel shouldConsiderTargets acc phrase
          else acc)
        []
    else []
  let labels1 :=
    if shouldConsiderTargets then
      explicitPhrases.foldl
        (fun acc phrase =>
          if strIncludes lower phrase then
            pushLabel shouldConsiderTargets acc phrase
          else acc)
        labels0
    else labels0
  let labels2 :=
    if shouldConsiderTargets then
      if strIncludes lower "color" || hasAttentionLanguage then
        colorPhrases.foldl
          (fun acc color =>
            if strIncludes lower color then
              pushLabel shouldConsiderTargets acc color
            else acc)
          labels1
      else labels1
    else labels1
  let idx0 : List Nat :=
    if shouldConsiderTargets then
      numberWords.foldl
        (fun acc wv =>
          if strIncludes lower (wv.1 ++ " option") ||
              strIncludes lower ("option " ++ wv.1) ||
              strIncludes lower (wv.1 ++ " answer") ||
              strIncludes lower (wv.1 ++ " choice") then
            pushIndex shouldConsiderTargets acc wv.2
          else acc)
        []
    else []
  let idx1 :=
    if shouldConsiderTargets then
      match scanNumberSel lower.data with
      | some ds => pushIndex shouldConsiderTargets idx0 (digitsToNat ds)
      | none => idx0
    else idx0
  let preferred : List String :=
    if hasAttentionLanguage then
      attentionKeywords.foldl
        (fun acc kw =>
          let n := normalize kw
          if n ≠ "" && !(acc.contains n) then acc ++ [n] else acc)
        []
    else []
  let labelFinal := dedupKeepFirst labels2
  let idxFinal := dedupKeepFirst idx1
  let prefFinal := dedupKeepFirst preferred
  let typedTruthy := match typedValue with | some s => s ≠ "" | none => false
  if labelFinal = [] && idxFinal = [] && prefFinal = [] && !typedTruthy then
    none
  else
    some ⟨labelFinal, idxFinal, typedValue, prefFinal⟩

/-! ## Answer bank (`SerializedAnswerEntry`, `findEntry`) -/

/-- One answer of a bank entry (`{raw, normalized}`). -/
structure AnswerPair where
  raw : String
  normalized : String
deriving DecidableEq, Repr

/-- A serialized answer-bank entry as consumed by `answerCurrentStep`. -/
structure SerializedAnswerEntry where
  rawQuestion : String
  question : String
  keywords : List String
  answers : List AnswerPair
deriving DecidableEq, Repr

/-- The entry-match predicate evaluated by `findEntry` for its single
left-to-right pass: a non-empty normalized question contained in either
direction, or any keyword contained in the prompt. -/
def entryMatches (questionText : String) (e : SerializedAnswerEntry) : Bool :=
  (e.question ≠ "" &&
    (strIncludes questionText e.question || strIncludes e.question questionText)) ||
  e.keywords.any (fun k => strIncludes questionText k)

/-- Shallow embedding of `findEntry`.  The DOM half
(`getQuestionText(element)`) is abstracted into the `questionRaw`
argument; the body normalizes it and scans the entries once. -/
def findEntry (answers : List SerializedAnswerEntry) (questionRaw : String) :
    Option SerializedAnswerEntry :=
  if answers = [] then none else
  let questionText := normalize questionRaw
  if questionText = "" then none else
  answers.find? (entryMatches questionText)

/-! ## Field resolvers (the per-kind branches of `answerCurrentStep`)

DOM elements are abstracted to the attributes the embedded code reads:
a radio input to the text `getLabelText` resolves for it, a select
option to its `value`/`disabled`/`innerText` triple.  The uniform-random
fallback of the radio branch (`chooseRandom`) is abstracted into a
`pick` argument so that theorems can quantify over every possible random
choice. -/

/-- A radio input, abstracted to its resolved label text. -/
structure RadioOption where
  labelText : String
deriving DecidableEq, Repr

/-- Radio label-target stage: first target whose normalized text is
contained in an option label (in either direction), first hit wins. -/
def radioLabelStage (targets : List String) (group : List RadioOption) :
    Option RadioOption :=
  targets.findSome? (fun target =>
    group.find? (fun candidate =>
      let text := normalize candidate.labelText
      strIncludes text target || strIncludes target text))

/-- Radio preferred-keyword stage: first option whose normalized label
contains any non-empty preferred keyword. -/
def radioKeywordStage (keywords : List String) (group : List RadioOption) :
    Option RadioOption :=
  group.find? (fun candidate =>
    let text := normalize candidate.labelText
    keywords.any (fun kw => kw ≠ "" && strIncludes text kw))

/-- Radio index-target stage: first 1-based index that designates an
existing group member. -/
def radioIndexStage (idxs : List Nat) (group : List RadioOption) :
    Option RadioOption :=
  idxs.findSome? (fun indexTarget => group.get? (indexTarget - 1))

/-- Radio answer-bank stage: first bank answer whose normalization is
contained in an option label (in either direction). -/
def radioBankStage (answers : List AnswerPair) (group : List RadioOption) :
    Option RadioOption :=
  answers.findSome? (fun answer =>
    group.find? (fun candidate =>
      let text := normalize candidate.labelText
      strIncludes text answer.normalized || strIncludes answer.normalized text))

/-- Shallow embedding of the radio-group branch of `answerCurrentStep`:
label targets, then preferred keywords, then index targets, then (only
when nothing is chosen yet) the answer-bank candidates, then the random
fallback (`chooseRandom`, abstracted into `pick`). -/
def resolveRadio (att : Option AttentionDirective)
    (entry : Option SerializedAnswerEntry) (group : List RadioOption)
    (pick : List RadioOption → Option RadioOption) : Option RadioOption :=
  let o1 : Option RadioOption :=
    match att with
    | some a =>
      if a.labelTargets = [] then none else radioLabelStage a.labelTargets group
    | none => none
  let o2 : Option RadioOption :=
    match o1 with
    | some o => some o
    | none =>
      match att with
      | some a =>
        if a.preferredKeywords = [] then none
        else radioKeywordStage a.preferredKeywords group
      | none => none
  let o3 : Option RadioOption :=
    match o2 with
    | some o => some o
    | none =>
      match att with
      | some a =>
        if a.indexTargets = [] then none
        else radioIndexStage a.indexTargets group
      | none => none
  let o4 : Option RadioOption :=
    match o3 with
    | some o => some o
    | none =>
      match entry with
      | some e => radioBankStage e.answers group
      | none => none
  match o4 with
  | some o => some o
  | none => pick group

/-- A `<option>` element of a `<select>`, with the attributes the
embedded code reads. -/
structure SelectOption where
  value : String
  disabled : Bool
  innerText : String
deriving DecidableEq, Repr

/-- `option.innerText || option.value`. -/
def selOptionText (o : SelectOption) : String :=
  if o.innerText ≠ "" then o.innerText else o.value

/-- The `option.value && !option.disabled` guard shared by every select
stage. -/
def selEnabled (o : SelectOption) : Bool :=
  o.value ≠ "" && !o.disabled

/-- Select label-target stage: first target contained in an enabled
option's text (in either direction), first hit wins. -/
def selLabelStage (targets : List String) (options : List SelectOption) :
    Option SelectOption :=
  targets.findSome? (fun target =>
    options.find? (fun o =>
      selEnabled o &&
        (let text := normalize (selOptionText o)
         strIncludes text target || strIncludes target text)))

/-- Select preferred-keyword stage: first enabled option whose text
contains any non-empty preferred keyword. -/
def selKeywordStage (keywords : List String) (options : List SelectOption) :
    Option SelectOption :=
  options.find? (fun o =>
    selEnabled o &&
      (let text := normalize (selOptionText o)
       keywords.any (fun kw => kw ≠ "" && strIncludes text kw)))

/-- Select index-target stage: first 1-based index designating an
existing, enabled option. -/
def selIndexStage (idxs : List Nat) (options : List SelectOption) :
    Option SelectOption :=
  idxs.findSome? (fun indexTarget =>
    match options.get? (indexTarget - 1) with
    | some candidate => if selEnabled candidate then some candidate else none
    | none => none)

/-- Select answer-bank stage: first bank answer whose normalization is
contained in an enabled option's text (in either direction). -/
def selBankStage (answers : List AnswerPair) (options : List SelectOption) :
    Option SelectOption :=
  answers.findSome? (fun answer =>
    options.find? (fun o =>
      selEnabled o &&
        (let text := normalize (selOptionText o)
         strIncludes text answer.normalized ||
           strIncludes answer.normalized text)))

/-- The select fallback: the first option with a non-empty value that is
not disabled. -/
def selFallback (options : List SelectOption) : Option SelectOption :=
  options.find? selEnabled

/-- Shallow embedding of the select branch of `answerCurrentStep`.  Note
that, unlike the radio branch, the answer-bank stage is guarded only by
`if (entry)` — not by `!choice` — so when an entry with a non-empty
answers list exists its result replaces whatever the attention stages
chose (possibly resetting the choice to nothing). -/
def resolveSelect (att : Option AttentionDirective)
    (entry : Option SerializedAnswerEntry) (options : List SelectOption) :
    Option SelectOption :=
  let c1 : Option SelectOption :=
    match att with
    | some a =>
      if a.labelTargets = [] then none else selLabelStage a.labelTargets options
    | none => none
  let c2 : Option SelectOption :=
    match c1 with
    | some c => some c
    | none =>
      match att with
      | some a =>
        if a.preferredKeywords = [] then none
        else selKeywordStage a.preferredKeywords options
      | none => none
  let c3 : Option SelectOption :=
    match c2 with
    | some c => some c
    | none =>
      match att with
      | some a =>
        if a.indexTargets = [] then none
        else selIndexStage a.indexTargets options
      | none => none
  let c4 : Option SelectOption :=
    match entry with
    | some e => if e.answers = [] then c3 else selBankStage e.answers options
    | none => c3
  match c4 with
  | some c => some c
  | none => selFallback options

/-- JavaScript `a || b` over a possibly-absent string (absent and the
empty string are both falsy). -/
def jsOrStr (a : Option String) (b : String) : String :=
  match a with
  | some s => if s ≠ "" then s else b
  | none => b

/-- Shallow embedding of the short-text branch of `answerCurrentStep`
(the value assigned to one of the first two visible text inputs):
`typedValue || bank first answer || placeholder || aria-label || name ||
"Sample answer"`. -/
def resolveShortText (att : Option AttentionDirective)
    (entry : Option SerializedAnswerEntry)
    (placeholder ariaLabel name_ : Option String) : String :=
  jsOrStr (att.bind (fun a => a.typedValue))
    (jsOrStr (entry.bind (fun e => e.answers.head?.map (fun p => p.raw)))
      (jsOrStr placeholder
        (jsOrStr ariaLabel
          (jsOrStr name_ "Sample answer"))))

/-! ## Long-form pipeline (`buildLongFormAnswers`, `GptLongFormResponder`) -/

/-- A long-form request as sent to the responder
(`{prompt, minLength?, maxLength?, fallback}`). -/
structure GptLongFormRequest where
  prompt : String
  minLength : Option Nat
  maxLength : Option Nat
  fallback : Option String
deriving DecidableEq, Repr

/-- What the OpenAI provider call inside `GptLongFormResponder.generate`
did: threw (any rejection of `client.responses.create`), or resolved
with an optional `output_text`. -/
inductive ProviderOutcome where
  | failure
  | output (text : Option String)
deriving DecidableEq, Repr

/-- Shallow embedding of `GptLongFormResponder.generate`.  The provider
call is abstracted into a `ProviderOutcome` value; the surrounding
control flow (empty-prompt early return, `try`/`catch` to the fallback,
empty-output fallback) is translated directly.  The embedding is a total
function, which models the contract that no exception crosses this
boundary. -/
def generate (request : GptLongFormRequest) (provider : ProviderOutcome) :
    Option String :=
  let trimmedPrompt := jsTrim request.prompt
  if trimmedPrompt = "" then request.fallback
  else
    match provider with
    | .failure => request.fallback
    | .output t =>
      match t with
      | some s =>
        let text := jsTrim s
        if text ≠ "" then some text else request.fallback
      | none => request.fallback

/-- A visible, enabled textarea as snapshotted by `buildLongFormAnswers`
(the `LongFormTarget` type of the source). -/
structure LongFormTarget where
  key : String
  prompt : String
  minLength : Option Nat
  maxLength : Option Nat
  placeholder : Option String
  rows : Option Nat
deriving DecidableEq, Repr

/-- The open-endedness test of `buildLongFormAnswers`:
`(rows ?? 0) > 2 || (minLength ?? 0) >= 120 || prompt.length >= 40`. -/
def shouldUseGpt (t : LongFormTarget) : Bool :=
  decide (2 < t.rows.getD 0) || decide (120 ≤ t.minLength.getD 0) ||
    decide (40 ≤ t.prompt.length)

/-- The fallback chosen for a target:
`placeholder && placeholder.trim().length > 0 ? placeholder : default`. -/
def longFormFallback (t : LongFormTarget) : String :=
  match t.placeholder with
  | some p =>
    if jsTrim p ≠ "" then p else "This response was generated automatically."
  | none => "This response was generated automatically."

/-- The request `buildLongFormAnswers` sends for one eligible target. -/
def mkRequest (t : LongFormTarget) : GptLongFormRequest :=
  { prompt :=
      jsOrStr (some t.prompt)
        (jsOrStr t.placeholder "Provide a friendly, first-person survey response.")
    minLength := t.minLength
    maxLength := t.maxLength
    fallback := some (longFormFallback t) }

/-- The per-target loop of `buildLongFormAnswers`: returns the recorded
`(key, answer)` pairs and, for verification, the list of requests that
were sent to the responder, both in encounter order. -/
def buildLongFormAnswersAux (gen : GptLongFormRequest → Option String) :
    List LongFormTarget → List (String × String) × List GptLongFormRequest
  | [] => ([], [])
  | t :: rest =>
    let tail := buildLongFormAnswersAux gen rest
    if shouldUseGpt t then
      let req := mkRequest t
      let answers :=
        match gen req with
        | some response =>
          if response ≠ "" then (t.key, response) :: tail.1 else tail.1
        | none => tail.1
      (answers, req :: tail.2)
    else tail

/-- Shallow embedding of `buildLongFormAnswers`: without a configured
responder it returns nothing and performs no request. -/
def buildLongFormAnswers
    (responder : Option (GptLongFormRequest → Option String))
    (targets : List LongFormTarget) :
    List (String × String) × List GptLongFormRequest :=
  match responder with
  | none => ([], [])
  | some gen => buildLongFormAnswersAux gen targets

/-! ## Human motion simulator (`moveMouseNaturally` / `followPath`)

Coordinates are rationals; `Math.random()` is modelled as a stream
`r : Nat → ℚ` of draws in `[0, 1)` consumed left to right, and
`Math.hypot` (whose value only perturbs the intermediate points, never
the landing point or the segment count) is abstracted into a `hypot`
parameter so the theorems quantify over every possible distance value. -/

/-- A pointer position. -/
structure Pt where
  x : ℚ
  y : ℚ
deriving DecidableEq, Repr

/-- The page viewport. -/
structure Viewport where
  width : ℚ
  height : ℚ
deriving DecidableEq, Repr

/-- `clamp(value, min, max)` (the `NaN` branch of the source cannot arise
over `ℚ`). -/
def clamp (value lo hi : ℚ) : ℚ :=
  if value < lo then lo else if value > hi then hi else value

/-- `clampX`: clamp to `[1, viewport.width - 1]`. -/
def clampX (v : Viewport) (x : ℚ) : ℚ := clamp x 1 (v.width - 1)

/-- `clampY`: clamp to `[1, viewport.height - 1]`. -/
def clampY (v : Viewport) (y : ℚ) : ℚ := clamp y 1 (v.height - 1)

/-- `randomBetween(min, max)` with the `Math.random()` draw `u` explicit. -/
def randomBetween (lo hi u : ℚ) : ℚ := lo + u * (hi - lo)

/-- JavaScript `Math.round` on the rationals produced here. -/
def jsRound (x : ℚ) : ℤ := Rat.floor (x + 1/2)

/-- Result of one `followPath` call: the points passed to `mouse.move`
in order, and the next unconsumed index of the randomness stream. -/
structure PathResult where
  points : List Pt
  nextIdx : Nat
deriving DecidableEq, Repr

/-- Shallow embedding of the `followPath` closure of `moveMouseNaturally`.
Draw `k` chooses the segment count; each loop iteration consumes three
draws (offset strength, `mouse.move` step count, pause duration) and the
final landing move consumes two more (step count, pause). -/
def followPath (v : Viewport) (hypot : Pt → Pt → ℚ) (src dst : Pt)
    (r : Nat → ℚ) (k : Nat) : PathResult :=
  let segments := (max 1 (jsRound (randomBetween 2 4 (r k)))).toNat
  let distance := hypot src dst
  let maxOffset := min 45 (distance * 3/10)
  let pts := (List.range segments).map (fun (i : ℕ) =>
    let progress : ℚ := (i + 1 : ℚ) / (segments + 1 : ℚ)
    let u := r (k + 1 + 3 * i)
    let offsetStrength := (u - 1/2) * 2 * maxOffset * (1 - progress)
    Pt.mk (clampX v (src.x + (dst.x - src.x) * progress + offsetStrength))
      (clampY v (src.y + (dst.y - src.y) * progress + offsetStrength * 3/5)))
  ⟨pts ++ [⟨clampX v dst.x, clampY v dst.y⟩], k + 3 * segments + 3⟩

/-- Result of one `moveMouseNaturally` call: the optional direct seeding
move (when no position was persisted yet), the `followPath` paths in
order (two under overshoot, one otherwise), and the updated persisted
`this.mousePosition`. -/
structure MoveOutcome where
  seedPoint : Option Pt
  paths : List (List Pt)
  finalPos : Pt
deriving DecidableEq, Repr

/-- Shallow embedding of `moveMouseNaturally`.  Without a viewport the
source moves straight to the (unclamped) target and persists it; with a
viewport it optionally seeds a start position (consuming four draws:
seed x, seed y, step count, pause), optionally paths to an overshoot
point perturbed by `±18` px, and always ends with a `followPath` onto
the target, persisting the clamped target. -/
def moveMouseNaturally (viewport : Option Viewport) (pos : Option Pt)
    (target : Pt) (overshoot : Bool) (hypot : Pt → Pt → ℚ) (r : Nat → ℚ) :
    MoveOutcome :=
  match viewport with
  | none => ⟨none, [[target]], target⟩
  | some v =>
    let seeded : Pt × Option Pt × Nat :=
      match pos with
      | some p => (p, none, 0)
      | none =>
        let sx := randomBetween (v.width * 1/4) (v.width * 3/4) (r 0)
        let sy := randomBetween (v.height * 1/4) (v.height * 3/4) (r 1)
        (⟨sx, sy⟩, some ⟨sx, sy⟩, 4)
    let start := seeded.1
    let seed := seeded.2.1
    let k0 := seeded.2.2
    if overshoot then
      let ox := clampX v (target.x + randomBetween (-18) 18 (r k0))
      let oy := clampY v (target.y + randomBetween (-18) 18 (r (k0 + 1)))
      let p1 := followPath v hypot start ⟨ox, oy⟩ r (k0 + 2)
      let p2 := followPath v hypot ⟨ox, oy⟩ target r p1.nextIdx
      ⟨seed, [p1.points, p2.points], ⟨clampX v target.x, clampY v target.y⟩⟩
    else
      let p1 := followPath v hypot start target r k0
      ⟨seed, [p1.points], ⟨clampX v target.x, clampY v target.y⟩⟩

/-! ## Step state machine (`answerSurvey`, `getActiveSurveyFrame`) -/

/-- A browser frame, identified by reference identity plus its URL. -/
structure Frame where
  id : Nat
  url : String
deriving DecidableEq, Repr

/-- The page: its main frame and the full `page.frames()` list. -/
structure Page where
  mainFrame : Frame
  frames : List Frame
deriving DecidableEq, Repr

/-- The survey-platform URL heuristic `/survey|qualtrics|question|form/i`. -/
def surveyUrlTest (url : String) : Bool :=
  let l := lowerStr url
  strIncludes l "survey" || strIncludes l "qualtrics" ||
    strIncludes l "question" || strIncludes l "form"

/-- Shallow embedding of `getActiveSurveyFrame`: the first non-main frame
whose URL matches the heuristic, else the main frame.  Its body always
produces a frame even though the declared TypeScript type is
`Frame | undefined`. -/
def getActiveSurveyFrame (page : Page) : Frame :=
  (page.frames.find? (fun f => surveyUrlTest f.url && f ≠ page.mainFrame)).getD
    page.mainFrame

/-- Terminal status of a run, following the spec vocabulary for the four
exits of `answerSurvey` (the no-frame exit is reported as `completed`,
matching the "assuming completion" branch). -/
inductive RunStatus where
  | completed
  | stalledNoInteraction
  | stalledNoAdvance
  | maxStepsReached
deriving DecidableEq, Repr

/-- A scripted environment for one run: what the browser reports at each
step index (frame lookup result, completion text present, whether
`answerCurrentStep` interacted with anything, whether `advance` found a
control). -/
structure StepEnv where
  frame : Nat → Option Frame
  complete : Nat → Bool
  interacted : Nat → Bool
  advanced : Nat → Bool

/-- Observable outcome of a run: terminal status, the (0-based) step
index at which the run ended, the step indices on which
`answerCurrentStep` was invoked, and whether the missing-frame early
return was taken. -/
structure RunResult where
  status : RunStatus
  finalStep : Nat
  fieldPasses : List Nat
  noFrameReturn : Bool
deriving DecidableEq, Repr

/-- The loop body of `answerSurvey`, structurally recursive on the number
of remaining steps.  Per step, in source order: frame lookup (missing ⇒
return, logged as completion), completion check (⇒ `completed`), field
pass (nothing interacted ⇒ `stalled-no-interaction`), advance (not found
⇒ `stalled-no-advance`), else next step; loop exhaustion ⇒
`max-steps-reached`. -/
def answerSurveyAux (env : StepEnv) : Nat → Nat → RunResult
  | step, 0 => ⟨.maxStepsReached, step, [], false⟩
  | step, rem + 1 =>
    match env.frame step with
    | none => ⟨.completed, step, [], true⟩
    | some _ =>
      if env.complete step then ⟨.completed, step, [], false⟩
      else if !env.interacted step then
        ⟨.stalledNoInteraction, step, [step], false⟩
      else if !env.advanced step then
        ⟨.stalledNoAdvance, step, [step], false⟩
      else
        let res := answerSurveyAux env (step + 1) rem
        ⟨res.status, res.finalStep, step :: res.fieldPasses, res.noFrameReturn⟩

/-- Shallow embedding of `answerSurvey`: run from step 0 with the
configured maximum step count. -/
def answerSurvey (env : StepEnv) (maxSteps : Nat) : RunResult :=
  answerSurveyAux env 0 maxSteps

/-! ## Spec-side lookup model

`findEntryClaim` follows the words of the specification for the
answer-bank lookup — question-text matches strictly before keyword
matches — and exists only to be compared against `findEntry`, which is
translated from the source. -/

/-- The specification's description of the lookup: the first entry
matching by question text; only if none matches by question text, the
first entry with a keyword contained in the prompt. -/
def findEntryClaim (answers : List SerializedAnswerEntry) (prompt : String) :
    Option SerializedAnswerEntry :=
  if prompt = "" then none else
  match answers.find? (fun e =>
      strIncludes prompt e.question || strIncludes e.question prompt) with
  | some e => some e
  | none => answers.find? (fun e => e.keywords.any (fun k => strIncludes prompt k))

/-! ## Concrete fixtures used by the claim theorems -/

/-- The attention-check prompt of the colour trap question. -/
def promptBlue : String := "Please select 'Blue' to verify you are paying attention"

/-- The ungated ordinal prompt. -/
def promptThird : String := "Choose the third option"

/-- The ordinal prompt with polite-instruction language. -/
def promptThirdPlease : String := "Please choose the third option"

/-- The typed-word prompt without quotes. -/
def promptBanana : String := "Type the word banana to confirm you read this"

/-- The typed-word prompt with the word quoted. -/
def promptBananaQuoted : String := "Type the word \"banana\" to confirm you read this"

/-- Radio group labelled Red, Green, Blue, Yellow. -/
def colorGroup : List RadioOption := [⟨"Red"⟩, ⟨"Green"⟩, ⟨"Blue"⟩, ⟨"Yellow"⟩]

/-- Radio group labelled A, B, C, D. -/
def abcdGroup : List RadioOption := [⟨"A"⟩, ⟨"B"⟩, ⟨"C"⟩, ⟨"D"⟩]

/-- Select options Red, Green, Blue, Yellow (all enabled). -/
def colorSelectOptions : List SelectOption :=
  [⟨"red", false, "Red"⟩, ⟨"green", false, "Green"⟩,
   ⟨"blue", false, "Blue"⟩, ⟨"yellow", false, "Yellow"⟩]

/-- An answer-bank entry matching the colour trap question and mapping it
to Red. -/
def redEntry : SerializedAnswerEntry :=
  ⟨promptBlue, normalize promptBlue, [], [⟨"Red", "red"⟩]⟩

/-- An entry that can only match by keyword. -/
def ageEntryKeyword : SerializedAnswerEntry :=
  ⟨"zzz", "zzz", ["age"], [⟨"A", "a"⟩]⟩

/-- An entry whose normalized question equals the probe prompt. -/
def ageEntryQuestion : SerializedAnswerEntry :=
  ⟨"what is your age", "what is your age", [], [⟨"B", "b"⟩]⟩

/-- The preferred keywords attached under attention language, in push
order. -/
def attentionKeywordsNormalized : List String :=
  ["attention", "paying attention", "i am paying attention", "human",
   "quality", "instruction"]

/-! ## Claim theorems -/

set_option maxRecDepth 4000000

/-- C2 (counterexample): for the prompt `"Please select 'Blue' to verify
you are paying attention"` the parser's label-target set is
`["blue", "attention"]` — the vocabulary phrase `"attention"` (which
occurs verbatim in the prompt) is pushed as a second label target — so
the set is not exactly `{"blue"}` as the claim states. -/
theorem claim_C2_counterexample :
    (detectAttentionInstruction promptBlue).map AttentionDirective.labelTargets =
      some ["blue", "attention"] ∧ ("attention" : String) ≠ "blue" :=
  ⟨by decide, by decide⟩

/-- C2 (amended): the directive for the colour trap prompt has label
targets `["blue", "attention"]` (the quoted colour first) and the fixed
attention preferred keywords; since `"blue"` is the first label target,
radio resolution selects the Blue option regardless of any answer-bank
entry for the question and of the random fallback. -/
theorem claim_C2_amended (entry : Option SerializedAnswerEntry)
    (pick : List RadioOption → Option RadioOption) :
    detectAttentionInstruction promptBlue =
      some ⟨["blue", "attention"], [], none, attentionKeywordsNormalized⟩ ∧
    resolveRadio (detectAttentionInstruction promptBlue) entry colorGroup pick =
      some ⟨"Blue"⟩ := by
  have hdet : detectAttentionInstruction promptBlue =
      some ⟨["blue", "attention"], [], none, attentionKeywordsNormalized⟩ := by
    decide
  have hlab : radioLabelStage ["blue", "attention"] colorGroup = some ⟨"Blue"⟩ := by
    decide
  refine ⟨hdet, ?_⟩
  rw [hdet]
  simp [resolveRadio, attentionKeywordsNormalized, hlab]

/-- C3 (counterexample): `"Choose the third option"` carries neither
attention language nor polite-instruction language, so
`shouldConsiderTargets` is false and the parser returns no directive at
all (rather than `indexTargets = {3}`); resolution then falls through to
the random stage, which may pick A instead of C. -/
theorem claim_C3_counterexample :
    detectAttentionInstruction promptThird = none ∧
    resolveRadio (detectAttentionInstruction promptThird) none abcdGroup
      (fun g => g.head?) = some ⟨"A"⟩ ∧
    (⟨"A"⟩ : RadioOption) ≠ ⟨"C"⟩ :=
  ⟨by decide, by decide, by decide⟩

/-- C3 (amended): once the prompt carries polite-instruction language —
`"Please choose the third option"` — the directive is exactly
`indexTargets = [3]`, and radio resolution selects the third option C
regardless of any answer-bank entry and of the random fallback. -/
theorem claim_C3_amended (entry : Option SerializedAnswerEntry)
    (pick : List RadioOption → Option RadioOption) :
    detectAttentionInstruction promptThirdPlease = some ⟨[], [3], none, []⟩ ∧
    resolveRadio (detectAttentionInstruction promptThirdPlease) entry abcdGroup
      pick = some ⟨"C"⟩ := by
  have hdet : detectAttentionInstruction promptThirdPlease =
      some ⟨[], [3], none, []⟩ := by decide
  have hidx : radioIndexStage [3] abcdGroup = some ⟨"C"⟩ := by decide
  refine ⟨hdet, ?_⟩
  rw [hdet]
  simp [resolveRadio, hidx]

/-- C4 (counterexample): for `"Type the word banana to confirm you read
this"` the typed-word extraction is gated on attention language or on
`exactly`/`attention`/`human`, none of which occurs, so no directive is
produced and the short-text fill falls through to `"Sample answer"`
instead of `"banana"`. -/
theorem claim_C4_counterexample :
    detectAttentionInstruction promptBanana = none ∧
    resolveShortText (detectAttentionInstruction promptBanana) none none none
      none = "Sample answer" ∧
    ("Sample answer" : String) ≠ "banana" :=
  ⟨by decide, by decide, by decide⟩

/-- C4 (amended): when the word is quoted — `"Type the word \"banana\" to
confirm you read this"` — the quoted typed-value rule (which is not
gated) extracts exactly `"banana"`, and the short-text field is filled
with exactly `"banana"` regardless of any answer-bank entry, placeholder,
aria-label or name attribute. -/
theorem claim_C4_amended (entry : Option SerializedAnswerEntry)
    (placeholder ariaLabel name_ : Option String) :
    detectAttentionInstruction promptBananaQuoted =
      some ⟨[], [], some "banana", []⟩ ∧
    resolveShortText (detectAttentionInstruction promptBananaQuoted) entry
      placeholder ariaLabel name_ = "banana" := by
  have hdet : detectAttentionInstruction promptBananaQuoted =
      some ⟨[], [], some "banana", []⟩ := by decide
  refine ⟨hdet, ?_⟩
  rw [hdet]
  simp [resolveShortText, jsOrStr]

/-- C1 (counterexample): on the colour trap prompt the attention label
stage alone chooses Blue, but as soon as an answer-bank entry mapping
the question to Red exists, the select resolution returns Red — the
bank stage is not short-circuited by the attention choice, contradicting
the claim that an attention-chosen option is never overridden. -/
theorem claim_C1_counterexample :
    resolveSelect (detectAttentionInstruction promptBlue) none
      colorSelectOptions = some ⟨"blue", false, "Blue"⟩ ∧
    resolveSelect (detectAttentionInstruction promptBlue) (some redEntry)
      colorSelectOptions = some ⟨"red", false, "Red"⟩ ∧
    (⟨"red", false, "Red"⟩ : SelectOption) ≠ ⟨"blue", false, "Blue"⟩ :=
  ⟨by decide, by decide, by decide⟩

/-- C1 (amended): without a matching answer-bank entry the select
resolution follows the radio stage ordering — label targets, then
preferred keywords, then index targets, first non-empty stage
short-circuiting, with the first non-empty non-disabled option as
fallback; but whenever an entry with a non-empty answers list exists,
the answer-bank stage runs unconditionally and its result replaces any
attention-stage choice (falling back to the first non-empty non-disabled
option when no bank answer matches). -/
theorem claim_C1_amended (a : AttentionDirective) (e : SerializedAnswerEntry)
    (options : List SelectOption) (o : SelectOption) :
    (selLabelStage a.labelTargets options = some o →
      resolveSelect (some a) none options = some o) ∧
    (selLabelStage a.labelTargets options = none →
      selKeywordStage a.preferredKeywords options = some o →
      resolveSelect (some a) none options = some o) ∧
    (selLabelStage a.labelTargets options = none →
      selKeywordStage a.preferredKeywords options = none →
      selIndexStage a.indexTargets options = some o →
      resolveSelect (some a) none options = some o) ∧
    (selLabelStage a.labelTargets options = none →
      selKeywordStage a.preferredKeywords options = none →
      selIndexStage a.indexTargets options = none →
      resolveSelect (some a) none options = selFallback options) ∧
    (e.answers ≠ [] →
      resolveSelect (some a) (some e) options =
        (match selBankStage e.answers options with
         | some c => some c
         | none => selFallback options)) := by
  have hemptyL : selLabelStage ([] : List String) options = none := rfl
  have hemptyK : selKeywordStage ([] : List String) options = none := by
    simp [selKeywordStage]
  have hemptyI : selIndexStage ([] : List Nat) options = none := rfl
  refine ⟨?_, ?_, ?_, ?_, ?_⟩
  · intro h1
    by_cases hl : a.labelTargets = []
    · rw [hl, hemptyL] at h1; cases h1
    · simp [resolveSelect, hl, h1]
  · intro h1 h2
    by_cases hl : a.labelTargets = [] <;>
      by_cases hk : a.preferredKeywords = []
    · rw [hk, hemptyK] at h2; cases h2
    · simp [resolveSelect, hl, hk, h2]
    · rw [hk, hemptyK] at h2; cases h2
    · simp [resolveSelect, hl, hk, h1, h2]
  · intro h1 h2 h3
    by_cases hl : a.labelTargets = [] <;>
      by_cases hk : a.preferredKeywords = [] <;>
        by_cases hi : a.indexTargets = []
    all_goals
      first
      | (rw [hi, hemptyI] at h3; cases h3)
      | simp [resolveSelect, hl, hk, hi, h1, h2, h3]
  · intro h1 h2 h3
    by_cases hl : a.labelTargets = [] <;>
      by_cases hk : a.preferredKeywords = [] <;>
        by_cases hi : a.indexTargets = [] <;>
          cases hf : selFallback options <;>
            simp [resolveSelect, hl, hk, hi, h1, h2, h3, hf]
  · intro he
    cases hb : selBankStage e.answers options <;>
      simp [resolveSelect, he, hb]

/-- C1 (witness): the amended claim instantiated on the colour select —
with only the attention directive the label stage's Blue is final, and
with the Red bank entry present the bank stage decides. -/
theorem claim_C1_witness :
    resolveSelect (some ⟨["blue"], [], none, []⟩) none colorSelectOptions =
      some ⟨"blue", false, "Blue"⟩ ∧
    resolveSelect (some ⟨["blue"], [], none, []⟩) (some redEntry)
      colorSelectOptions =
      (match selBankStage redEntry.answers colorSelectOptions with
       | some c => some c
       | none => selFallback colorSelectOptions) :=
  ⟨(claim_C1_amended ⟨["blue"], [], none, []⟩ redEntry colorSelectOptions
      ⟨"blue", false, "Blue"⟩).1 (by decide),
   (claim_C1_amended ⟨["blue"], [], none, []⟩ redEntry colorSelectOptions
      ⟨"blue", false, "Blue"⟩).2.2.2.2 (by decide)⟩

/-- Splitting lemma for `List.find?`: a successful lookup splits the list
into a prefix on which the predicate fails, the hit, and a suffix. -/
theorem find?_eq_some_split {α} {p : α → Bool} {l : List α} {a : α}
    (h : l.find? p = some a) :
    ∃ l1 l2, l = l1 ++ a :: l2 ∧ ∀ x ∈ l1, p x = false := by
  induction l with
  | nil => simp at h
  | cons b rest ih =>
    by_cases hb : p b
    · rw [List.find?_cons_of_pos _ hb] at h
      cases h
      exact ⟨[], rest, rfl, by simp⟩
    · rw [List.find?_cons_of_neg _ hb] at h
      obtain ⟨l1, l2, rfl, hall⟩ := ih h
      refine ⟨b :: l1, l2, rfl, ?_⟩
      intro x hx
      rcases List.mem_cons.mp hx with rfl | hx
      · exact Bool.not_eq_true _ ▸ by simpa using hb
      · exact hall x hx

/-- C5 (counterexample): with a first entry that matches only by keyword
and a second entry whose normalized question equals the prompt,
`findEntry` returns the first (keyword) entry while the claimed
question-text-first behaviour (`findEntryClaim`) returns the second —
the lookup gives keyword matches of earlier entries priority over
question matches of later ones. -/
theorem claim_C5_counterexample :
    findEntry [ageEntryKeyword, ageEntryQuestion] "what is your age" =
      some ageEntryKeyword ∧
    findEntryClaim [ageEntryKeyword, ageEntryQuestion] "what is your age" =
      some ageEntryQuestion ∧
    ageEntryKeyword ≠ ageEntryQuestion :=
  ⟨by decide, by decide, by decide⟩

/-- C5 (amended): `findEntry` normalizes the prompt and makes a single
left-to-right pass returning the first entry that matches either by
question text (non-empty normalized question contained in either
direction) or by a keyword contained in the prompt, with no priority of
question matches over keyword matches; it returns nothing exactly when
the normalized prompt is empty or no entry matches at all. -/
theorem claim_C5_amended (entries : List SerializedAnswerEntry)
    (prompt : String) :
    (normalize prompt = "" → findEntry entries prompt = none) ∧
    (findEntry entries prompt = none ↔
      (normalize prompt = "" ∨
        ∀ e ∈ entries, entryMatches (normalize prompt) e = false)) ∧
    (∀ e, findEntry entries prompt = some e →
      entryMatches (normalize prompt) e = true ∧
      ∃ l1 l2, entries = l1 ++ e :: l2 ∧
        ∀ x ∈ l1, entryMatches (normalize prompt) x = false) := by
  refine ⟨?_, ?_, ?_⟩
  · intro h
    by_cases hnil : entries = [] <;> simp [findEntry, hnil, h]
  · by_cases hnil : entries = []
    · subst hnil; simp [findEntry]
    · by_cases h : normalize prompt = ""
      · simp [findEntry, hnil, h]
      · simp only [findEntry, hnil, h, if_false, List.find?_eq_none]
        constructor
        · intro hall
          exact Or.inr (fun e he => Bool.not_eq_true _ ▸ by simpa using hall e he)
        · rintro (hcontra | hall)
          · exact hcontra.elim
          · intro e he
            simp [hall e he]
  · intro e hfind
    by_cases hnil : entries = []
    · simp [findEntry, hnil] at hfind
    · by_cases h : normalize prompt = ""
      · simp [findEntry, hnil, h] at hfind
      · simp only [findEntry, hnil, h, if_false] at hfind
        exact ⟨List.find?_some hfind, find?_eq_some_split hfind⟩

/-- C5 (witness): the amended claim instantiated — a punctuation-only
prompt normalizes to the empty string and never matches. -/
theorem claim_C5_witness :
    normalize "?" = "" ∧ findEntry [ageEntryKeyword] "?" = none :=
  ⟨by decide, (claim_C5_amended [ageEntryKeyword] "?").1 (by decide)⟩

/-- Every step on which `answerCurrentStep` runs was first frame-resolved
and failed its completion check: the completion check precedes every
field pass. -/
theorem answerSurveyAux_fieldPasses (env : StepEnv) :
    ∀ rem step s, s ∈ (answerSurveyAux env step rem).fieldPasses →
      env.complete s = false ∧ (env.frame s).isSome = true := by
  intro rem
  induction rem with
  | zero =>
    intro step s hs
    simp [answerSurveyAux] at hs
  | succ n ih =>
    intro step s hs
    cases hf : env.frame step with
    | none => simp [answerSurveyAux, hf] at hs
    | some f =>
      by_cases hc : env.complete step
      · simp [answerSurveyAux, hf, hc] at hs
      · by_cases hi : env.interacted step
        · by_cases ha : env.advanced step
          · simp only [answerSurveyAux, hf, hc, hi, ha] at hs
            simp at hs
            rcases hs with rfl | hs
            · exact ⟨by simpa using hc, by simp [hf]⟩
            · exact ih _ _ hs
          · simp [answerSurveyAux, hf, hc, hi, ha] at hs
            subst hs
            exact ⟨by simpa using hc, by simp [hf]⟩
        · simp [answerSurveyAux, hf, hc, hi] at hs
          subst hs
          exact ⟨by simpa using hc, by simp [hf]⟩

/-- C6: in every run the completion check runs before any field pass —
if completion text is present at the first check, the run ends
`completed` on the first step with no field pass at all; if the first
field pass interacts with nothing, the run ends `stalled-no-interaction`
on the first step instead of reaching the step cap; and every step on
which a field pass ran had failed its completion check first. -/
theorem claim_C6 (env : StepEnv) (maxSteps : Nat) (hmax : 0 < maxSteps)
    (hframe : (env.frame 0).isSome = true) :
    (env.complete 0 = true →
      answerSurvey env maxSteps = ⟨.completed, 0, [], false⟩) ∧
    (env.complete 0 = false → env.interacted 0 = false →
      answerSurvey env maxSteps = ⟨.stalledNoInteraction, 0, [0], false⟩) ∧
    (∀ s, s ∈ (answerSurvey env maxSteps).fieldPasses →
      env.complete s = false) := by
  obtain ⟨rem, rfl⟩ : ∃ rem, maxSteps = rem + 1 :=
    ⟨maxSteps - 1, by omega⟩
  obtain ⟨f, hf⟩ := Option.isSome_iff_exists.mp hframe
  refine ⟨?_, ?_, ?_⟩
  · intro hc
    simp [answerSurvey, answerSurveyAux, hf, hc]
  · intro hc hi
    simp [answerSurvey, answerSurveyAux, hf, hc, hi]
  · intro s hs
    exact (answerSurveyAux_fieldPasses env _ _ s hs).1

/-- A scripted environment whose completion text is present from the
first check. -/
def envCompleteNow : StepEnv :=
  ⟨fun _ => some ⟨0, "main"⟩, fun _ => true, fun _ => false, fun _ => false⟩

/-- A scripted environment whose field snapshots are always empty (no
interaction ever happens). -/
def envNoInteract : StepEnv :=
  ⟨fun _ => some ⟨0, "main"⟩, fun _ => false, fun _ => false, fun _ => true⟩

/-- C6 (witness): the two scripted runs of the claim, at the default step
cap of 35 — immediate completion on step 1 with no field pass, and
`stalled-no-interaction` on step 1. -/
theorem claim_C6_witness :
    answerSurvey envCompleteNow 35 = ⟨.completed, 0, [], false⟩ ∧
    answerSurvey envNoInteract 35 = ⟨.stalledNoInteraction, 0, [0], false⟩ :=
  ⟨(claim_C6 envCompleteNow 35 (by decide) rfl).1 rfl,
   (claim_C6 envNoInteract 35 (by decide) rfl).2.1 rfl rfl⟩

/-- The requests sent by the long-form loop are exactly the requests of
the open-ended targets, in encounter order. -/
theorem buildLongFormAnswersAux_requests
    (gen : GptLongFormRequest → Option String) :
    ∀ targets : List LongFormTarget,
      (buildLongFormAnswersAux gen targets).2 =
        (targets.filter shouldUseGpt).map mkRequest := by
  intro targets
  induction targets with
  | nil => rfl
  | cons t rest ih =>
    by_cases hg : shouldUseGpt t
    · cases hgen : gen (mkRequest t) <;>
        simp [buildLongFormAnswersAux, hg, hgen, List.filter_cons, ih]
    · simp [buildLongFormAnswersAux, hg, List.filter_cons, ih]

/-- Every recorded long-form answer stems from an open-ended target. -/
theorem buildLongFormAnswersAux_keys
    (gen : GptLongFormRequest → Option String) :
    ∀ (targets : List LongFormTarget) (kv : String × String),
      kv ∈ (buildLongFormAnswersAux gen targets).1 →
      ∃ t ∈ targets, shouldUseGpt t = true ∧ t.key = kv.1 := by
  intro targets
  induction targets with
  | nil =>
    intro kv hkv
    simp [buildLongFormAnswersAux] at hkv
  | cons t rest ih =>
    intro kv hkv
    by_cases hg : shouldUseGpt t
    · cases hgen : gen (mkRequest t) with
      | none =>
        simp only [buildLongFormAnswersAux, hg, if_true, hgen] at hkv
        obtain ⟨u, hu, hrest⟩ := ih kv hkv
        exact ⟨u, List.mem_cons_of_mem _ hu, hrest⟩
      | some response =>
        simp only [buildLongFormAnswersAux, hg, if_true, hgen] at hkv
        by_cases hresp : response = ""
        · simp only [hresp, ne_eq, not_true_eq_false, if_false] at hkv
          obtain ⟨u, hu, hrest⟩ := ih kv hkv
          exact ⟨u, List.mem_cons_of_mem _ hu, hrest⟩
        · simp only [ne_eq, hresp, not_false_eq_true, if_true,
            List.mem_cons] at hkv
          rcases hkv with rfl | hkv
          · exact ⟨t, List.mem_cons_self t rest, hg, rfl⟩
          · obtain ⟨u, hu, hrest⟩ := ih kv hkv
            exact ⟨u, List.mem_cons_of_mem _ hu, hrest⟩
    · simp only [buildLongFormAnswersAux, hg, if_false] at hkv
      obtain ⟨u, hu, hrest⟩ := ih kv hkv
      exact ⟨u, List.mem_cons_of_mem _ hu, hrest⟩

/-- C7: with a configured responder, a long-form request is sent for a
snapshotted textarea exactly when `rows > 2` or `minLength ≥ 120` or the
collected prompt is at least 40 characters; every recorded answer keys
an open-ended target; a textarea with one row, no minimum length and a
10-character prompt is never open-ended, while one with
`minLength = 150` always is. -/
theorem claim_C7 (gen : GptLongFormRequest → Option String)
    (targets : List LongFormTarget) :
    ((buildLongFormAnswers (some gen) targets).2 =
      (targets.filter shouldUseGpt).map mkRequest) ∧
    (∀ kv ∈ (buildLongFormAnswers (some gen) targets).1,
      ∃ t ∈ targets, shouldUseGpt t = true ∧ t.key = kv.1) ∧
    (∀ t : LongFormTarget, t.rows = some 1 → t.minLength = none →
      t.prompt.length = 10 → shouldUseGpt t = false) ∧
    (∀ t : LongFormTarget, t.minLength = some 150 → shouldUseGpt t = true) := by
  refine ⟨buildLongFormAnswersAux_requests gen targets,
    fun kv hkv => buildLongFormAnswersAux_keys gen targets kv hkv, ?_, ?_⟩
  · intro t h1 h2 h3
    simp [shouldUseGpt, h1, h2, h3]
  · intro t h
    simp [shouldUseGpt, h]

/-- A one-row textarea with a ten-character prompt. -/
def shortTarget : LongFormTarget := ⟨"k1", "ABCDEFGHIJ", none, none, none, some 1⟩

/-- A textarea requiring at least 150 characters. -/
def longTarget : LongFormTarget := ⟨"k2", "", some 150, none, none, none⟩

/-- C7 (witness): the eligibility test instantiated on the two concrete
textareas, and the request list of a run over the ineligible one. -/
theorem claim_C7_witness :
    shouldUseGpt shortTarget = false ∧ shouldUseGpt longTarget = true ∧
    (buildLongFormAnswers (some (fun _ => some "a generated answer"))
        [shortTarget]).2 =
      (([shortTarget].filter shouldUseGpt).map mkRequest) :=
  ⟨(claim_C7 (fun _ => some "a generated answer") [shortTarget]).2.2.1
      shortTarget rfl rfl rfl,
   (claim_C7 (fun _ => some "a generated answer") [longTarget]).2.2.2
      longTarget rfl,
   (claim_C7 (fun _ => some "a generated answer") [shortTarget]).1⟩

/-- C8: `generate` is a total function of the request and the provider
outcome — no exception crosses the boundary — and it resolves to the
request's fallback on provider failure, on missing provider output, on
whitespace-only provider output, and on an empty or whitespace-only
prompt. -/
theorem claim_C8 (request : GptLongFormRequest) (s : String)
    (provider : ProviderOutcome) :
    (generate request .failure = request.fallback) ∧
    (generate request (.output none) = request.fallback) ∧
    (jsTrim s = "" → generate request (.output (some s)) = request.fallback) ∧
    (jsTrim request.prompt = "" → generate request provider = request.fallback) := by
  refine ⟨?_, ?_, ?_, ?_⟩
  · by_cases hp : jsTrim request.prompt = "" <;> simp [generate, hp]
  · by_cases hp : jsTrim request.prompt = "" <;> simp [generate, hp]
  · intro hs
    by_cases hp : jsTrim request.prompt = "" <;> simp [generate, hp, hs]
  · intro hp
    cases provider <;> simp [generate, hp]

/-- A long-form request with a non-empty prompt and an explicit fallback. -/
def sampleRequest : GptLongFormRequest :=
  ⟨"Tell me more about your day", none, none, some "the fallback"⟩

/-- A long-form request whose prompt is whitespace only. -/
def blankRequest : GptLongFormRequest :=
  ⟨"   ", none, none, some "the fallback"⟩

/-- C8 (witness): whitespace-only provider output and a whitespace-only
prompt both resolve to the fallback. -/
theorem claim_C8_witness :
    generate sampleRequest (.output (some "   ")) = sampleRequest.fallback ∧
    generate blankRequest (.output (some "anything")) = blankRequest.fallback :=
  ⟨(claim_C8 sampleRequest "   " .failure).2.2.1 (by decide),
   (claim_C8 blankRequest "x" (.output (some "anything"))).2.2.2 (by decide)⟩

/-- When the frame source always produces a frame, the missing-frame
early return of the step loop can never be taken. -/
theorem answerSurveyAux_noFrame (env : StepEnv)
    (hsome : ∀ n, (env.frame n).isSome = true) :
    ∀ rem step, (answerSurveyAux env step rem).noFrameReturn = false := by
  intro rem
  induction rem with
  | zero => intro step; rfl
  | succ n ih =>
    intro step
    obtain ⟨f, hf⟩ := Option.isSome_iff_exists.mp (hsome step)
    by_cases hc : env.complete step
    · simp [answerSurveyAux, hf, hc]
    · by_cases hi : env.interacted step
      · by_cases ha : env.advanced step
        · simp [answerSurveyAux, hf, hc, hi, ha, ih]
        · simp [answerSurveyAux, hf, hc, hi, ha]
      · simp [answerSurveyAux, hf, hc, hi]

/-- C10: `getActiveSurveyFrame` always yields a frame — when no frame's
URL matches the survey heuristic it falls back to the page's main frame
— so a run whose frame source is `getActiveSurveyFrame` can never take
the missing-frame early return of the step loop. -/
theorem claim_C10 (page : Page) (complete interacted advanced : Nat → Bool)
    (maxSteps : Nat) :
    ((answerSurvey
        ⟨fun _ => some (getActiveSurveyFrame page), complete, interacted,
          advanced⟩ maxSteps).noFrameReturn = false) ∧
    ((∀ f ∈ page.frames, surveyUrlTest f.url = false) →
      getActiveSurveyFrame page = page.mainFrame) := by
  constructor
  · exact answerSurveyAux_noFrame
      ⟨fun _ => some (getActiveSurveyFrame page), complete, interacted,
        advanced⟩ (fun n => rfl) maxSteps 0
  · intro h
    unfold getActiveSurveyFrame
    have hnone : page.frames.find?
        (fun f => surveyUrlTest f.url && f ≠ page.mainFrame) = none := by
      rw [List.find?_eq_none]
      intro f hf
      simp [h f hf]
    rw [hnone]
    rfl

/-- A page whose only frame is a dashboard URL that does not match the
survey heuristic. -/
def samplePage : Page :=
  ⟨⟨0, "https://app.example.com/dashboard"⟩,
   [⟨0, "https://app.example.com/dashboard"⟩]⟩

/-- C10 (witness): on the dashboard page the heuristic matches nothing,
the main frame is returned, and a 35-step run never takes the
missing-frame return. -/
theorem claim_C10_witness :
    (answerSurvey
        ⟨fun _ => some (getActiveSurveyFrame samplePage), fun _ => false,
          fun _ => false, fun _ => false⟩ 35).noFrameReturn = false ∧
    getActiveSurveyFrame samplePage = samplePage.mainFrame :=
  ⟨(claim_C10 samplePage (fun _ => false) (fun _ => false) (fun _ => false)
      35).1,
   (claim_C10 samplePage (fun _ => false) (fun _ => false) (fun _ => false)
      35).2 (by decide)⟩

/-- The rounded segment count drawn by `followPath` lies in `{2, 3, 4}`
for every `Math.random()` draw in `[0, 1)`. -/
theorem jsRound_randomBetween_bounds (u : ℚ) (h0 : 0 ≤ u) (h1 : u < 1) :
    2 ≤ jsRound (randomBetween 2 4 u) ∧ jsRound (randomBetween 2 4 u) ≤ 4 := by
  unfold jsRound randomBetween
  constructor
  · apply Rat.le_floor.mpr
    push_cast
    nlinarith
  · by_contra hlt
    push_neg at hlt
    have h5 : (5 : ℤ) ≤ Rat.floor (2 + u * (4 - 2) + 1/2) := by omega
    have h6 := Rat.le_floor.mp h5
    push_cast at h6
    nlinarith

/-- Shape of one `followPath` call for a bounded draw: the path lands
exactly on the clamped destination, and it consists of 2 to 4
intermediate points plus the landing point. -/
theorem followPath_spec (v : Viewport) (hyp : Pt → Pt → ℚ) (src dst : Pt)
    (r : Nat → ℚ) (k : Nat) (h0 : 0 ≤ r k) (h1 : r k < 1) :
    (followPath v hyp src dst r k).points.getLast? =
      some ⟨clampX v dst.x, clampY v dst.y⟩ ∧
    3 ≤ (followPath v hyp src dst r k).points.length ∧
    (followPath v hyp src dst r k).points.length ≤ 5 := by
  obtain ⟨hlo, hhi⟩ := jsRound_randomBetween_bounds (r k) h0 h1
  refine ⟨?_, ?_, ?_⟩
  · simp [followPath]
  · simp only [followPath, List.length_append, List.length_map,
      List.length_range, List.length_singleton]
    omega
  · simp only [followPath, List.length_append, List.length_map,
      List.length_range, List.length_singleton]
    omega

/-- The last point of a single-path join. -/
theorem join_single_getLast {α} (a : List α) (c : α) (h : a.getLast? = some c) :
    ([a].flatten).getLast? = some c := by
  simp [h]

/-- The last point of a two-path join is the last point of the second
path. -/
theorem join_pair_getLast {α} (a b : List α) (c : α) (h : b.getLast? = some c) :
    ([a, b].flatten).getLast? = some c := by
  simp [List.getLast?_append, h]

/-- C9: with a viewport present and `Math.random()` draws in `[0, 1)`,
every `moveMouseNaturally` call updates the persisted cursor position to
the viewport-clamped target, the joined motion path ends exactly on the
clamped target, and every `followPath` path consists of 2 to 4
intermediate points plus the landing point. -/
theorem claim_C9 (v : Viewport) (pos : Option Pt) (target : Pt)
    (overshoot : Bool) (hyp : Pt → Pt → ℚ) (r : Nat → ℚ)
    (hr : ∀ n, 0 ≤ r n ∧ r n < 1) :
    (moveMouseNaturally (some v) pos target overshoot hyp r).finalPos =
      ⟨clampX v target.x, clampY v target.y⟩ ∧
    ((moveMouseNaturally (some v) pos target overshoot hyp r).paths.flatten).getLast? =
      some ⟨clampX v target.x, clampY v target.y⟩ ∧
    (∀ p ∈ (moveMouseNaturally (some v) pos target overshoot hyp r).paths,
      3 ≤ p.length ∧ p.length ≤ 5) := by
  cases pos with
  | some p =>
    cases overshoot with
    | false =>
      have hm : moveMouseNaturally (some v) (some p) target false hyp r =
          ⟨none, [(followPath v hyp p target r 0).points],
            ⟨clampX v target.x, clampY v target.y⟩⟩ := rfl
      have spec := followPath_spec v hyp p target r 0 (hr 0).1 (hr 0).2
      rw [hm]
      refine ⟨rfl, join_single_getLast _ _ spec.1, ?_⟩
      intro q hq
      rcases List.mem_singleton.mp hq with rfl
      exact spec.2
    | true =>
      have hm : moveMouseNaturally (some v) (some p) target true hyp r =
          ⟨none,
            [(followPath v hyp p
                ⟨clampX v (target.x + randomBetween (-18) 18 (r 0)),
                 clampY v (target.y + randomBetween (-18) 18 (r 1))⟩ r 2).points,
             (followPath v hyp
                ⟨clampX v (target.x + randomBetween (-18) 18 (r 0)),
                 clampY v (target.y + randomBetween (-18) 18 (r 1))⟩ target r
                (followPath v hyp p
                  ⟨clampX v (target.x + randomBetween (-18) 18 (r 0)),
                   clampY v (target.y + randomBetween (-18) 18 (r 1))⟩
                  r 2).nextIdx).points],
            ⟨clampX v target.x, clampY v target.y⟩⟩ := rfl
      rw [hm]
      set over : Pt :=
        ⟨clampX v (target.x + randomBetween (-18) 18 (r 0)),
         clampY v (target.y + randomBetween (-18) 18 (r 1))⟩ with hover
      have spec1 := followPath_spec v hyp p over r 2 (hr 2).1 (hr 2).2
      have spec2 := followPath_spec v hyp over target r
        (followPath v hyp p over r 2).nextIdx
        (hr (followPath v hyp p over r 2).nextIdx).1
        (hr (followPath v hyp p over r 2).nextIdx).2
      refine ⟨rfl, join_pair_getLast _ _ _ spec2.1, ?_⟩
      intro q hq
      rcases List.mem_cons.mp hq with rfl | hq
      · exact spec1.2
      · rcases List.mem_singleton.mp hq with rfl
        exact spec2.2
  | none =>
    cases overshoot with
    | false =>
      have hm : moveMouseNaturally (some v) none target false hyp r =
          ⟨some ⟨randomBetween (v.width * 1/4) (v.width * 3/4) (r 0),
                 randomBetween (v.height * 1/4) (v.height * 3/4) (r 1)⟩,
            [(followPath v hyp
                ⟨randomBetween (v.width * 1/4) (v.width * 3/4) (r 0),
                 randomBetween (v.height * 1/4) (v.height * 3/4) (r 1)⟩
                target r 4).points],
            ⟨clampX v target.x, clampY v target.y⟩⟩ := rfl
      rw [hm]
      set start : Pt :=
        ⟨randomBetween (v.width * 1/4) (v.width * 3/4) (r 0),
         randomBetween (v.height * 1/4) (v.height * 3/4) (r 1)⟩ with hstart
      have spec := followPath_spec v hyp start target r 4 (hr 4).1 (hr 4).2
      refine ⟨rfl, join_single_getLast _ _ spec.1, ?_⟩
      intro q hq
      rcases List.mem_singleton.mp hq with rfl
      exact spec.2
    | true =>
      have hm : moveMouseNaturally (some v) none target true hyp r =
          ⟨some ⟨randomBetween (v.width * 1/4) (v.width * 3/4) (r 0),
                 randomBetween (v.height * 1/4) (v.height * 3/4) (r 1)⟩,
            [(followPath v hyp
                ⟨randomBetween (v.width * 1/4) (v.width * 3/4) (r 0),
                 randomBetween (v.height * 1/4) (v.height * 3/4) (r 1)⟩
                ⟨clampX v (target.x + randomBetween (-18) 18 (r 4)),
                 clampY v (target.y + randomBetween (-18) 18 (r 5))⟩ r 6).points,
             (followPath v hyp
                ⟨clampX v (target.x + randomBetween (-18) 18 (r 4)),
                 clampY v (target.y + randomBetween (-18) 18 (r 5))⟩ target r
                (followPath v hyp
                  ⟨randomBetween (v.width * 1/4) (v.width * 3/4) (r 0),
                   randomBetween (v.height * 1/4) (v.height * 3/4) (r 1)⟩
                  ⟨clampX v (target.x + randomBetween (-18) 18 (r 4)),
                   clampY v (target.y + randomBetween (-18) 18 (r 5))⟩
                  r 6).nextIdx).points],
            ⟨clampX v target.x, clampY v target.y⟩⟩ := rfl
      rw [hm]
      set start : Pt :=
        ⟨randomBetween (v.width * 1/4) (v.width * 3/4) (r 0),
         randomBetween (v.height * 1/4) (v.height * 3/4) (r 1)⟩ with hstart
      set over : Pt :=
        ⟨clampX v (target.x + randomBetween (-18) 18 (r 4)),
         clampY v (target.y + randomBetween (-18) 18 (r 5))⟩ with hover
      have spec1 := followPath_spec v hyp start over r 6 (hr 6).1 (hr 6).2
      have spec2 := followPath_spec v hyp over target r
        (followPath v hyp start over r 6).nextIdx
        (hr (followPath v hyp start over r 6).nextIdx).1
        (hr (followPath v hyp start over r 6).nextIdx).2
      refine ⟨rfl, join_pair_getLast _ _ _ spec2.1, ?_⟩
      intro q hq
      rcases List.mem_cons.mp hq with rfl | hq
      · exact spec1.2
      · rcases List.mem_singleton.mp hq with rfl
        exact spec2.2

/-- The 100 × 100 viewport used by the motion witness. -/
def vp100 : Viewport := ⟨100, 100⟩

/-- C9 (witness): a concrete move in a 100 × 100 viewport from a
persisted position onto the target — the persisted position becomes the
clamped target and the path lands on it. -/
theorem claim_C9_witness :
    (moveMouseNaturally (some vp100) (some ⟨5, 5⟩) ⟨50, 60⟩ false
        (fun _ _ => 0) (fun _ => 0)).finalPos =
      ⟨clampX vp100 50, clampY vp100 60⟩ ∧
    ((moveMouseNaturally (some vp100) (some ⟨5, 5⟩) ⟨50, 60⟩ false
        (fun _ _ => 0) (fun _ => 0)).paths.flatten).getLast? =
      some ⟨clampX vp100 50, clampY vp100 60⟩ :=
  ⟨(claim_C9 vp100 (some ⟨5, 5⟩) ⟨50, 60⟩ false (fun _ _ => 0) (fun _ => 0)
      (fun n => ⟨le_refl 0, by norm_num⟩)).1,
   (claim_C9 vp100 (some ⟨5, 5⟩) ⟨50, 60⟩ false (fun _ _ => 0) (fun _ => 0)
      (fun n => ⟨le_refl 0, by norm_num⟩)).2.1⟩

end Solvap

